import Mathlib

/-!
Verification of the sports-statistics collector pipeline.

Shallow embedding of the data-collection core of the nhl-stats-dashboard
repository: the golf / NHL / NFL collectors, their SQLite loaders, the
cache-backed rate-limited HTTP clients and the aggregate builder.

Conventions used throughout:

* SQLite `REAL` values (Python floats) are modelled by exact rationals `ℚ`;
  SQLite `INTEGER` by `Int`; nullable columns by `Option`.
* A table is a list of rows.  Surrogate `AUTOINCREMENT` ids are modelled
  explicitly only where a claim depends on them (the golf aggregate table);
  elsewhere a row is the tuple of its data columns and an insert appends.
* Python truthiness (`x or d`, `if not s`) is modelled by explicit helper
  functions (`pyOrInt`, `pyOrQ`, `pyOrStr`).
-/

namespace NhlDash

/-- Sum of the digit characters of `cs` read as a base-10 numeral.
Callers guarantee `cs` consists of digits only. -/
def digitsToNat (cs : List Char) : Nat :=
  cs.foldl (fun a c => a * 10 + (c.toNat - '0'.toNat)) 0

/-- Model of Python `int(s)` on an already-stripped string: an optional
sign followed by at least one ASCII digit parses, everything else raises
`ValueError` (modelled as `none`). -/
def pyInt (s : String) : Option Int :=
  match s.toList with
  | [] => none
  | '-' :: rest =>
      if rest ≠ [] ∧ rest.all Char.isDigit then some (-(digitsToNat rest : Int)) else none
  | '+' :: rest =>
      if rest ≠ [] ∧ rest.all Char.isDigit then some ((digitsToNat rest : Int)) else none
  | cs =>
      if cs.all Char.isDigit then some ((digitsToNat cs : Int)) else none

/-- Python `a or d` for an optional integer `a` (a JSON field that may be
missing or `null`): `None` and `0` are falsy and give `d`. -/
def pyOrInt (a : Option Int) (d : Int) : Int :=
  match a with
  | none => d
  | some x => if x = 0 then d else x

/-- Python `a or b` where both sides are optional rationals
(`None` and `0.0` are falsy). -/
def pyOrQ (a : Option ℚ) (b : Option ℚ) : Option ℚ :=
  match a with
  | none => b
  | some x => if x = 0 then b else some x

/-- Python `a or b` for an optional string falling back to a string
(`None` and `""` are falsy). -/
def pyOrStr (a : Option String) (b : String) : String :=
  match a with
  | none => b
  | some x => if x = "" then b else x

/-- Python `s.upper()` (ASCII, which covers every string these collectors
produce), written over the character list so that it evaluates by
kernel reduction. -/
def pyUpper (s : String) : String :=
  String.mk (s.toList.map Char.toUpper)

/-- Drop leading and trailing whitespace from a character list. -/
def trimChars (cs : List Char) : List Char :=
  ((cs.dropWhile Char.isWhitespace).reverse.dropWhile Char.isWhitespace).reverse

/-- Python `s.strip()` (ASCII whitespace). -/
def pyStrip (s : String) : String :=
  String.mk (trimChars s.toList)

/-- Split a character list on the single character `' '`, keeping empty
pieces: the behavior of Python `s.split(" ")`. -/
def splitSpaceChars : List Char → List (List Char)
  | [] => [[]]
  | c :: rest =>
      let r := splitSpaceChars rest
      if c = ' ' then [] :: r else (c :: r.headD []) :: r.tail

/-- Python `s.split(" ")`. -/
def pySplitSpace (s : String) : List String :=
  (splitSpaceChars s.toList).map String.mk

/-- Python `sep.join(parts)`. -/
def pyJoin (sep : String) : List String → String
  | [] => ""
  | x :: xs => xs.foldl (fun a b => a ++ sep ++ b) x

/-- Round to the nearest integer, ties to even: the rounding of Python's
built-in `round` (float arithmetic modelled exactly over `ℚ`). -/
def roundHalfEven (q : ℚ) : Int :=
  let f : Int := ⌊q⌋
  let r : ℚ := q - (f : ℚ)
  if r < 1/2 then f
  else if 1/2 < r then f + 1
  else if f % 2 = 0 then f else f + 1

/-- Python `round(q, d)` (ties to even), modelled exactly over `ℚ`. -/
def pyRound (q : ℚ) (d : Nat) : ℚ :=
  (roundHalfEven (q * 10 ^ d) : ℚ) / 10 ^ d

/-- SQLite `ROUND(q, 1)`: one decimal, halves rounded away from zero
(float arithmetic modelled exactly over `ℚ`). -/
def sqlRound1 (q : ℚ) : ℚ :=
  (if 0 ≤ q then ((⌊q * 10 + 1/2⌋ : Int) : ℚ) else -((⌊-(q * 10) + 1/2⌋ : Int) : ℚ)) / 10

/-- Minimum of a list, `none` when empty: SQL `MIN` over the non-null
values of a column. -/
def optMin (l : List Int) : Option Int :=
  l.foldl (fun acc x => match acc with
    | none => some x
    | some m => some (min m x)) none

/-- Maximum of a list, `none` when empty: SQL `MAX` over the non-null
values of a column. -/
def optMax (l : List Int) : Option Int :=
  l.foldl (fun acc x => match acc with
    | none => some x
    | some m => some (max m x)) none

/-- SQL `MAX` over a group's `TEXT` column (all values non-null here);
`""` is the least string so folding from it returns the group maximum. -/
def maxString (l : List String) : String :=
  l.foldl max ""

/-! ## Golf collector (`golf/golf_collector.py`) -/

/-- One entry of the upstream `leaderboardRows` payload, with the `.get`
defaults of `collect_leaderboard` already applied to absent keys.
`totalStrokes` stands for `totalStrokesFromCompletedRounds` (default `""`,
non-numeric text fails `int()` and yields a null). -/
structure RawGolfPlayer where
  position     : String
  status       : String
  playerId     : String
  firstName    : String
  lastName     : String
  total        : String
  totalStrokes : String
  isAmateur    : Bool
  deriving Repr, DecidableEq

/-- `parse_position`: `str(pos_str).upper().replace("T", "").strip()` then
`int(...)`; the empty string is falsy and returns `None` immediately. -/
def parsePosition (posStr : String) : Option Int :=
  if posStr = "" then none
  else
    pyInt (pyStrip (String.mk ((pyUpper posStr).toList.filter (fun c => c ≠ 'T'))))

/-- A data row of the `golf_results` table (every column except the
`AUTOINCREMENT` surrogate `id`). -/
structure GolfResult where
  tourn_id        : String
  year            : Int
  tournament_name : String
  player_id       : String
  first_name      : String
  last_name       : String
  full_name       : String
  position        : String
  position_num    : Option Int
  total_score     : String
  total_strokes   : Option Int
  is_amateur      : Int
  made_cut        : Int
  top_5           : Int
  top_10          : Int
  top_20          : Int
  top_25          : Int
  win             : Int
  deriving Repr, DecidableEq

/-- The per-player result row built inside `collect_leaderboard`. -/
def mkGolfResult (tournId : String) (year : Int) (tournName : String)
    (p : RawGolfPlayer) : GolfResult :=
  let posStr := p.position
  let posNum := parsePosition posStr
  let status := pyUpper p.status
  let madeCut : Int := if status ∈ ["CUT", "WD", "DQ", "MDF"] then 0 else 1
  -- `1 if pos_num and pos_num <= k else 0`: `None` and `0` are falsy.
  let topFlag : Int → Int := fun k =>
    match posNum with
    | none => 0
    | some n => if n ≠ 0 ∧ n ≤ k then 1 else 0
  { tourn_id        := tournId
    year            := year
    tournament_name := tournName
    player_id       := p.playerId
    first_name      := p.firstName
    last_name       := p.lastName
    full_name       := pyStrip (p.firstName ++ " " ++ p.lastName)
    position        := posStr
    position_num    := posNum
    total_score     := p.total
    total_strokes   := pyInt p.totalStrokes
    is_amateur      := if p.isAmateur then 1 else 0
    made_cut        := madeCut
    win             := if posNum = some 1 then 1 else 0
    top_5           := topFlag 5
    top_10          := topFlag 10
    top_20          := topFlag 20
    top_25          := topFlag 25 }

/-- `load_results`: a plain `INSERT INTO golf_results` for every result
row.  `golf_results` has only the `AUTOINCREMENT` surrogate primary key,
so every row is appended; nothing is replaced. -/
def loadResults (table : List GolfResult) (results : List GolfResult) :
    List GolfResult :=
  table ++ results

/-- A data row of the `golf_player_season_stats` table (every column
except the `AUTOINCREMENT` surrogate `id`).  `total_fedex_points` is not
in the `INSERT` column list of `build_season_stats` and takes its schema
default 0. -/
structure SeasonStat where
  player_id          : String
  first_name         : String
  last_name          : String
  full_name          : String
  year               : Int
  events             : Int
  cuts_made          : Int
  wins               : Int
  top_5              : Int
  top_10             : Int
  top_20             : Int
  top_25             : Int
  total_strokes      : Int
  avg_score          : Option ℚ
  best_finish        : Option Int
  worst_finish       : Option Int
  total_fedex_points : Int
  cut_pct            : ℚ
  win_pct            : ℚ
  deriving Repr, DecidableEq

/-- The aggregate row computed by the `SELECT ... GROUP BY player_id,
year` of `build_season_stats` for one group `grp` with key `k`. -/
def mkSeasonStat (k : String × Int) (grp : List GolfResult) : SeasonStat :=
  let cuts := (grp.map (fun r => r.made_cut)).sum
  let wins := (grp.map (fun r => r.win)).sum
  let events : Int := (grp.length : Int)
  -- AVG(CASE WHEN total_strokes IS NOT NULL AND made_cut=1 THEN total_strokes END)
  let avgStrokes := grp.filterMap (fun r => if r.made_cut = 1 then r.total_strokes else none)
  { player_id          := k.1
    first_name         := maxString (grp.map (fun r => r.first_name))
    last_name          := maxString (grp.map (fun r => r.last_name))
    full_name          := maxString (grp.map (fun r => r.full_name))
    year               := k.2
    events             := events
    cuts_made          := cuts
    wins               := wins
    top_5              := (grp.map (fun r => r.top_5)).sum
    top_10             := (grp.map (fun r => r.top_10)).sum
    top_20             := (grp.map (fun r => r.top_20)).sum
    top_25             := (grp.map (fun r => r.top_25)).sum
    total_strokes      := (grp.map (fun r => r.total_strokes.getD 0)).sum
    avg_score          := if avgStrokes = [] then none
                          else some (sqlRound1 ((avgStrokes.sum : ℚ) / (avgStrokes.length : ℚ)))
    best_finish        := optMin (grp.filterMap (fun r => r.position_num))
    worst_finish       := optMax (grp.filterMap (fun r => r.position_num))
    total_fedex_points := 0
    cut_pct            := sqlRound1 ((cuts : ℚ) / (events : ℚ) * 100)
    win_pct            := sqlRound1 ((wins : ℚ) / (events : ℚ) * 100) }

/-- The rows admitted by the aggregation query's `WHERE player_id != ''`. -/
def validRows (rows : List GolfResult) : List GolfResult :=
  rows.filter (fun r => r.player_id ≠ "")

/-- The grouping key of a `golf_results` row. -/
def resultKey (r : GolfResult) : String × Int :=
  (r.player_id, r.year)

/-- The result set of the aggregation `SELECT` of `build_season_stats`:
one aggregate row per distinct `(player_id, year)` among the rows with a
non-empty `player_id`, groups in first-appearance order. -/
def buildSeasonStats (rows : List GolfResult) : List SeasonStat :=
  let vrows := validRows rows
  ((vrows.map resultKey).dedup).map
    (fun k => mkSeasonStat k (vrows.filter (fun r => resultKey r = k)))

/-- State of the `golf_player_season_stats` table: its rows (surrogate
`AUTOINCREMENT` id paired with the data columns) together with the
`sqlite_sequence` counter, which `DELETE FROM` does not reset. -/
structure AggState where
  rows : List (Nat × SeasonStat)
  seq  : Nat
  deriving Repr, DecidableEq

/-- `build_season_stats`: `DELETE FROM golf_player_season_stats` then
`INSERT ... SELECT`.  The freshly inserted rows receive ids continuing
from the sequence counter, because the table uses `AUTOINCREMENT`. -/
def buildSeasonStatsState (facts : List GolfResult) (st : AggState) : AggState :=
  let datas := buildSeasonStats facts
  { rows := ((List.range datas.length).zip datas).map
      (fun p => (st.seq + 1 + p.1, p.2))
    seq  := st.seq + datas.length }

/-! ## Rate-limited, cache-backed HTTP client (`collectors/nhl_api.py`) -/

/-- A parsed JSON payload, as far as the cache logic observes it: the
distinguished `null` value versus any other JSON data. -/
inductive Json where
  | null : Json
  | num  : ℚ → Json
  | str  : String → Json
  deriving Repr, DecidableEq

/-- One cache file: its key (filename derived injectively from
`(endpoint, parameters)` by `_cache_key`), the stored payload, and the
file's modification time. -/
structure CacheEntry where
  key     : String
  payload : Json
  mtime   : ℚ
  deriving Repr, DecidableEq

/-- Observable state of an `NHLApiClient`: configuration, cache
directory contents, the current wall clock, `_last_request_time`, and a
counter of network calls performed (for stating "zero network calls"). -/
structure ClientState where
  useCache        : Bool
  cacheTtl        : ℚ
  cache           : List CacheEntry
  now             : ℚ
  lastRequestTime : ℚ
  netCalls        : Nat
  deriving Repr, DecidableEq

/-- `_read_cache`: return the parsed payload when the file exists and its
age is within `ttl`, else `None`.  A stored JSON `null` parses to Python
`None` as well, so the caller cannot tell it apart from a miss. -/
def readCache (st : ClientState) (key : String) (ttl : ℚ) : Option Json :=
  match st.cache.find? (fun e => e.key == key) with
  | none => none
  | some e =>
      if st.now - e.mtime > ttl then none
      else match e.payload with
        | Json.null => none
        | p => some p

/-- `_write_cache`: overwrite the entry for `key` with `data`, the file's
mtime becoming the current time. -/
def writeCache (st : ClientState) (key : String) (data : Json) : ClientState :=
  { st with cache :=
      ⟨key, data, st.now⟩ :: st.cache.filter (fun e => e.key ≠ key) }

/-- `RATE_LIMIT_DELAY = 0.4` seconds. -/
def RATE_LIMIT_DELAY : ℚ := 2/5

/-- `_get`: consult the cache first; on a hit return the cached payload
untouched (no sleep, no network call, `_last_request_time` unchanged).
Otherwise rate-limit, perform the network call (the upstream response
`resp` arriving after `netDur ≥ 0` seconds), stamp
`_last_request_time`, cache the response and return it. -/
def clientGet (st : ClientState) (key : String) (ttlArg : Option ℚ)
    (resp : Json) (netDur : ℚ) : Json × ClientState :=
  let ttl := ttlArg.getD st.cacheTtl
  let fetch : Json × ClientState :=
    -- `_rate_limit()`: sleep the remainder of the minimum delay.
    let elapsed := st.now - st.lastRequestTime
    let t1 := if elapsed < RATE_LIMIT_DELAY then st.now + (RATE_LIMIT_DELAY - elapsed) else st.now
    let t2 := t1 + netDur
    let st' : ClientState :=
      { st with now := t2, lastRequestTime := t2, netCalls := st.netCalls + 1 }
    (resp, if st'.useCache then writeCache st' key resp else st')
  if st.useCache then
    match readCache st key ttl with
    | some cached => (cached, st)
    | none => fetch
  else fetch

/-- The data of `_rate_limit` and the surrounding `_get`: the clock and
the `_last_request_time` stamp. -/
structure RLState where
  now  : ℚ
  last : ℚ
  deriving Repr, DecidableEq

/-- One cache-missing request: `_rate_limit()` sleeps the remainder of
`RATE_LIMIT_DELAY` since the previous request, then the network call
takes `netDur` seconds, and `finally:` stamps `_last_request_time`. -/
def rateLimitStep (st : RLState) (netDur : ℚ) : RLState :=
  let elapsed := st.now - st.last
  let t1 := if elapsed < RATE_LIMIT_DELAY then st.now + (RATE_LIMIT_DELAY - elapsed) else st.now
  let t2 := t1 + netDur
  ⟨t2, t2⟩

/-- A sequence of consecutive cache-missing requests through one client,
with the given network durations. -/
def runRequests (st : RLState) (durs : List ℚ) : RLState :=
  durs.foldl rateLimitStep st

/-! ## NHL collector (`collectors/data_collector.py`) -/

/-- One record of the skater summary endpoint's `data` array, as seen
through the `.get` calls of `collect_skater_stats`: a field holds
`some v` for a present value (an absent key already collapsed to the
`.get` default), and `none` for a JSON `null` value. -/
structure RawApiSkater where
  playerId         : Option Int
  skaterFullName   : String
  teamAbbrevs      : String
  positionCode     : String
  gamesPlayed      : Option Int
  goals            : Option Int
  assists          : Option Int
  points           : Option Int
  plusMinus        : Option Int
  penaltyMinutes   : Option Int
  ppGoals          : Option Int
  ppPoints         : Option Int
  shGoals          : Option Int
  gameWinningGoals : Option Int
  shots            : Option Int
  hits             : Option Int
  blockedShots     : Option Int
  timeOnIcePerGame : String
  deriving Repr, DecidableEq

/-- `name.split(" ")[0] if name else ""`. -/
def firstWord (name : String) : String :=
  if name = "" then "" else (pySplitSpace name).headD ""

/-- `" ".join(name.split(" ")[1:]) if name else ""`. -/
def restWords (name : String) : String :=
  if name = "" then "" else pyJoin " " (pySplitSpace name).tail

/-- One record of a `skater_stats_{season}.json` file.  Every field is
optional because `load_skater_stats` reads it back through `.get`. -/
structure SkaterJson where
  player_id       : Option Int
  first_name      : Option String
  last_name       : Option String
  full_name       : Option String
  team_abbrev     : Option String
  position        : Option String
  season          : Option String
  games_played    : Option Int
  goals           : Option Int
  assists         : Option Int
  points          : Option Int
  plus_minus      : Option Int
  penalty_minutes : Option Int
  pp_goals        : Option Int
  pp_points       : Option Int
  sh_goals        : Option Int
  gw_goals        : Option Int
  shots           : Option Int
  hits            : Option Int
  blocked_shots   : Option Int
  toi_per_game    : Option String
  toi             : Option String
  shooting_pct    : Option ℚ
  points_per_game : Option ℚ
  goals_per_game  : Option ℚ
  deriving Repr, DecidableEq

/-- The normalized record appended by `collect_skater_stats` for one
skater `p` of a summary page. -/
def collectSkaterRecord (season : String) (p : RawApiSkater) : SkaterJson :=
  let goals  := pyOrInt p.goals 0
  let points := pyOrInt p.points 0
  let shots  := pyOrInt p.shots 0
  let gp     := pyOrInt p.gamesPlayed 0
  { player_id       := p.playerId
    first_name      := some (firstWord p.skaterFullName)
    last_name       := some (restWords p.skaterFullName)
    full_name       := some p.skaterFullName
    team_abbrev     := some p.teamAbbrevs
    position        := some p.positionCode
    season          := some season
    games_played    := some gp
    goals           := some goals
    assists         := p.assists
    points          := some points
    plus_minus      := p.plusMinus
    penalty_minutes := p.penaltyMinutes
    pp_goals        := p.ppGoals
    pp_points       := p.ppPoints
    sh_goals        := p.shGoals
    gw_goals        := p.gameWinningGoals
    shots           := some shots
    hits            := p.hits
    blocked_shots   := p.blockedShots
    toi_per_game    := some p.timeOnIcePerGame
    toi             := none
    shooting_pct    := some (if shots > 0 then pyRound ((goals : ℚ) / (shots : ℚ) * 100) 1 else 0)
    points_per_game := some (if gp > 0 then pyRound ((points : ℚ) / (gp : ℚ)) 3 else 0)
    goals_per_game  := some (if gp > 0 then pyRound ((goals : ℚ) / (gp : ℚ)) 3 else 0) }

/-- One response of the paginated skater summary endpoint: the page's
`data` array and the server-reported `total`. -/
structure StatsPage where
  data  : List RawApiSkater
  total : Int
  deriving Repr, DecidableEq

/-- The pagination `while True:` loop of `collect_skater_stats`.  The
responses of successive offsets are consumed in order; a raised fetch
error is caught, logged and answered with `break`, keeping everything
accumulated so far.  An empty page or `start + 100 ≥ total` also ends the
loop.  (The surrounding function then saves the accumulated list with
`save_json` and returns it.) -/
def collectSkaterLoop (season : String) :
    List (Except String StatsPage) → Nat → List SkaterJson → List SkaterJson
  | [], _, acc => acc
  | (Except.error _) :: _, _, acc => acc
  | (Except.ok raw) :: rest, start, acc =>
      if raw.data = [] then acc
      else
        let acc' := acc ++ raw.data.map (collectSkaterRecord season)
        if ((start : Int) + 100) ≥ raw.total then acc'
        else collectSkaterLoop season rest (start + 100) acc'

/-- `collect_skater_stats`: drain the summary pages from offset 0 and
persist whatever was accumulated, even after a mid-sequence failure. -/
def collectSkaterStats (season : String)
    (resps : List (Except String StatsPage)) : List SkaterJson :=
  collectSkaterLoop season resps 0 []

/-- One record of the goalie summary endpoint's `data` array, through the
`.get` calls of `collect_goalie_stats`. -/
structure RawApiGoalie where
  playerId       : Option Int
  goalieFullName : String
  teamAbbrevs    : String
  gamesPlayed    : Option Int
  gamesStarted   : Option Int
  wins           : Option Int
  losses         : Option Int
  otLosses       : Option Int
  savePct        : Option ℚ
  gaa            : Option ℚ
  shutouts       : Option Int
  saves          : Option Int
  shotsAgainst   : Option Int
  goalsAgainst   : Option Int
  timeOnIce      : String
  deriving Repr, DecidableEq

/-- One record of a `goalie_stats_{season}.json` file; every field
optional because `load_goalie_stats` reads it back through `.get`. -/
structure GoalieJson where
  player_id     : Option Int
  first_name    : Option String
  last_name     : Option String
  full_name     : Option String
  team_abbrev   : Option String
  season        : Option String
  games_played  : Option Int
  games_started : Option Int
  wins          : Option Int
  losses        : Option Int
  ot_losses     : Option Int
  save_pct      : Option ℚ
  gaa           : Option ℚ
  shutouts      : Option Int
  saves         : Option Int
  shots_against : Option Int
  goals_against : Option Int
  toi           : Option String
  deriving Repr, DecidableEq

/-- The record appended by `collect_goalie_stats` for one goalie.  The
source dict literal writes the `"player_id"` key twice; the later
`g.get("playerId")` wins.  The collector does gather `losses` and
`ot_losses`. -/
def collectGoalieRecord (season : String) (g : RawApiGoalie) : GoalieJson :=
  { player_id     := g.playerId
    first_name    := some (firstWord g.goalieFullName)
    last_name     := some (restWords g.goalieFullName)
    full_name     := some g.goalieFullName
    team_abbrev   := some g.teamAbbrevs
    season        := some season
    games_played  := g.gamesPlayed
    games_started := g.gamesStarted
    wins          := g.wins
    losses        := g.losses
    ot_losses     := g.otLosses
    save_pct      := g.savePct
    gaa           := g.gaa
    shutouts      := g.shutouts
    saves         := g.saves
    shots_against := g.shotsAgainst
    goals_against := g.goalsAgainst
    toi           := some g.timeOnIce }

/-! ## NHL database loader (`db/load_database.py`) -/

/-- A data row of the `skater_stats` table (every column except the
`AUTOINCREMENT` surrogate `id`). -/
structure SkaterRow where
  player_id       : Option Int
  first_name      : String
  last_name       : String
  full_name       : String
  team_abbrev     : String
  position        : String
  season          : String
  games_played    : Int
  goals           : Int
  assists         : Int
  points          : Int
  plus_minus      : Int
  penalty_minutes : Int
  pp_goals        : Int
  sh_goals        : Int
  gw_goals        : Int
  shots           : Int
  hits            : Int
  blocked_shots   : Int
  toi             : String
  points_per_game : Option ℚ
  goals_per_game  : Option ℚ
  shooting_pct    : Option ℚ
  deriving Repr, DecidableEq

/-- The row built by `load_skater_stats` for one record `p` of a
season's JSON file. -/
def loadSkaterRow (season : String) (p : SkaterJson) : SkaterRow :=
  let goals   := pyOrInt p.goals 0
  let points  := pyOrInt p.points 0
  let shots   := pyOrInt p.shots 0
  let gp      := pyOrInt p.games_played 0
  { player_id       := p.player_id
    first_name      := p.first_name.getD ""
    last_name       := p.last_name.getD ""
    full_name       := pyOrStr p.full_name
      (pyStrip (p.first_name.getD "" ++ " " ++ p.last_name.getD ""))
    team_abbrev     := p.team_abbrev.getD ""
    position        := p.position.getD ""
    season          := season
    games_played    := gp
    goals           := goals
    assists         := pyOrInt p.assists 0
    points          := points
    plus_minus      := pyOrInt p.plus_minus 0
    penalty_minutes := pyOrInt p.penalty_minutes 0
    pp_goals        := pyOrInt p.pp_goals 0
    sh_goals        := pyOrInt p.sh_goals 0
    gw_goals        := pyOrInt p.gw_goals 0
    shots           := shots
    hits            := pyOrInt p.hits 0
    blocked_shots   := pyOrInt p.blocked_shots 0
    toi             := pyOrStr p.toi_per_game (pyOrStr p.toi "")
    points_per_game := pyOrQ p.points_per_game
      (if gp > 0 then some (pyRound ((points : ℚ) / (gp : ℚ)) 3) else none)
    goals_per_game  := pyOrQ p.goals_per_game
      (if gp > 0 then some (pyRound ((goals : ℚ) / (gp : ℚ)) 3) else none)
    shooting_pct    := pyOrQ p.shooting_pct
      (if shots > 0 then some (pyRound ((goals : ℚ) / (shots : ℚ) * 100) 1) else none) }

/-- `load_skater_stats` table effect: `INSERT OR REPLACE INTO
skater_stats`.  The table's only uniqueness constraint is the surrogate
`AUTOINCREMENT` primary key, which a fresh insert never conflicts with,
so `OR REPLACE` never fires and every record is appended. -/
def loadSkaterStatsTable (table : List SkaterRow) (season : String)
    (recs : List SkaterJson) : List SkaterRow :=
  table ++ recs.map (loadSkaterRow season)

/-- A data row of the `goalie_stats` table (every column except the
`AUTOINCREMENT` surrogate `id`). -/
structure GoalieRow where
  player_id   : Option Int
  first_name  : String
  last_name   : String
  full_name   : String
  team_abbrev : String
  season      : String
  wins        : Option Int
  losses      : Option Int
  ot_losses   : Option Int
  save_pct    : Option ℚ
  gaa         : Option ℚ
  shutouts    : Option Int
  deriving Repr, DecidableEq

/-- The row built by `load_goalie_stats` for one record `g` of a
season's JSON file: `losses` and `ot_losses` are hard-coded to `None`. -/
def loadGoalieRow (season : String) (g : GoalieJson) : GoalieRow :=
  { player_id   := g.player_id
    first_name  := g.first_name.getD ""
    last_name   := g.last_name.getD ""
    full_name   := pyStrip (g.first_name.getD "" ++ " " ++ g.last_name.getD "")
    team_abbrev := g.team_abbrev.getD ""
    season      := season
    wins        := g.wins
    losses      := none
    ot_losses   := none
    save_pct    := g.save_pct
    gaa         := g.gaa
    shutouts    := g.shutouts }

/-- `load_goalie_stats` table effect: like the skater loader, the
`INSERT OR REPLACE` appends because `goalie_stats` has no natural-key
uniqueness constraint. -/
def loadGoalieStatsTable (table : List GoalieRow) (season : String)
    (recs : List GoalieJson) : List GoalieRow :=
  table ++ recs.map (loadGoalieRow season)

/-! ## NFL API client (`nfl/nfl_api.py`) -/

/-- One response body of a cursor-paginated endpoint: its `data` array
and `meta.next_cursor`. -/
structure PageOf (α : Type) where
  data       : List α
  nextCursor : Option String
  deriving Repr, DecidableEq

/-- `_get_all_pages`: drain the cursor chain, appending each page's
records, until a page has no `next_cursor` or no records.  A failed page
fetch raises (`Except.error`), abandoning the local accumulator.  The
successive server responses are consumed in order; an exhausted response
list models the upstream ending the chain. -/
def getAllPages {α : Type} :
    List (Except String (PageOf α)) → List α → Except String (List α)
  | [], acc => Except.ok acc
  | (Except.error e) :: _, _ => Except.error e
  | (Except.ok p) :: rest, acc =>
      let acc' := acc ++ p.data
      if p.nextCursor.isNone || p.data.isEmpty then Except.ok acc'
      else getAllPages rest acc'

/-! ## NFL collector (`nfl/nfl_collector.py`) -/

/-- The nested `"player"` object of a season-stats record, through the
`.get` calls of `load_player_stats`.  `team` records whether the field
held a string (the `isinstance(..., str)` test). -/
structure RawNflPlayer where
  id                    : Option Int
  first_name            : Option String
  last_name             : Option String
  position              : Option String
  position_abbreviation : Option String
  team                  : Option String
  deriving Repr, DecidableEq

/-- One season-stats record as consumed by `load_player_stats`: the
nested player object plus every stat field read by the loader
(`none` for an absent or `null` field). -/
structure RawNflStat where
  player                   : RawNflPlayer
  games_played             : Option Int
  passing_completions      : Option Int
  passing_attempts         : Option Int
  passing_yards            : Option Int
  passing_touchdowns       : Option Int
  passing_interceptions    : Option Int
  passing_yards_per_game   : Option ℚ
  passing_completion_pct   : Option ℚ
  yards_per_pass_attempt   : Option ℚ
  qbr                      : Option ℚ
  rushing_attempts         : Option Int
  rushing_yards            : Option Int
  rushing_touchdowns       : Option Int
  rushing_yards_per_game   : Option ℚ
  yards_per_rush_attempt   : Option ℚ
  rushing_fumbles          : Option Int
  rushing_fumbles_lost     : Option Int
  rushing_first_downs      : Option Int
  receptions               : Option Int
  receiving_targets        : Option Int
  receiving_yards          : Option Int
  receiving_touchdowns     : Option Int
  receiving_yards_per_game : Option ℚ
  yards_per_reception      : Option ℚ
  receiving_fumbles        : Option Int
  receiving_first_downs    : Option Int
  total_tackles            : Option Int
  solo_tackles             : Option Int
  assist_tackles           : Option Int
  defensive_sacks          : Option ℚ
  defensive_sack_yards     : Option ℚ
  defensive_interceptions  : Option Int
  interception_touchdowns  : Option Int
  fumbles_forced           : Option Int
  fumbles_recovered        : Option Int
  fumbles_touchdowns       : Option Int
  field_goal_attempts      : Option Int
  field_goals_made         : Option Int
  field_goal_pct           : Option ℚ
  field_goals_made_1_19    : Option Int
  field_goals_made_20_29   : Option Int
  field_goals_made_30_39   : Option Int
  field_goals_made_40_49   : Option Int
  field_goals_made_50      : Option Int
  punts                    : Option Int
  punt_yards               : Option Int
  deriving Repr, DecidableEq

/-- A data row of the `nfl_player_stats` table (every column except the
`AUTOINCREMENT` surrogate `id`). -/
structure NflRow where
  season                   : Int
  postseason               : Int
  player_id                : Option Int
  first_name               : String
  last_name                : String
  full_name                : String
  position                 : String
  position_abbrev          : String
  team                     : String
  games_played             : Option Int
  passing_completions      : Option Int
  passing_attempts         : Option Int
  passing_yards            : Option Int
  passing_touchdowns       : Option Int
  passing_interceptions    : Option Int
  passing_yards_per_game   : Option ℚ
  passing_completion_pct   : Option ℚ
  yards_per_pass_attempt   : Option ℚ
  qbr                      : Option ℚ
  rushing_attempts         : Option Int
  rushing_yards            : Option Int
  rushing_touchdowns       : Option Int
  rushing_yards_per_game   : Option ℚ
  yards_per_rush_attempt   : Option ℚ
  rushing_fumbles          : Option Int
  rushing_fumbles_lost     : Option Int
  rushing_first_downs      : Option Int
  receptions               : Option Int
  receiving_targets        : Option Int
  receiving_yards          : Option Int
  receiving_touchdowns     : Option Int
  receiving_yards_per_game : Option ℚ
  yards_per_reception      : Option ℚ
  receiving_fumbles        : Option Int
  receiving_first_downs    : Option Int
  total_tackles            : Option Int
  solo_tackles             : Option Int
  assist_tackles           : Option Int
  defensive_sacks          : Option ℚ
  defensive_sack_yards     : Option ℚ
  defensive_interceptions  : Option Int
  interception_touchdowns  : Option Int
  fumbles_forced           : Option Int
  fumbles_recovered        : Option Int
  fumbles_touchdowns       : Option Int
  field_goal_attempts      : Option Int
  field_goals_made         : Option Int
  field_goal_pct           : Option ℚ
  field_goals_made_1_19    : Option Int
  field_goals_made_20_29   : Option Int
  field_goals_made_30_39   : Option Int
  field_goals_made_40_49   : Option Int
  field_goals_made_50      : Option Int
  punts                    : Option Int
  punt_yards               : Option Int
  deriving Repr, DecidableEq

/-- The row dict built by `load_player_stats` for one record `s`. -/
def mkNflRow (season : Int) (postseason : Bool) (s : RawNflStat) : NflRow :=
  let p := s.player
  { season                   := season
    postseason               := if postseason then 1 else 0
    player_id                := p.id
    first_name               := p.first_name.getD ""
    last_name                := p.last_name.getD ""
    full_name                := pyStrip (p.first_name.getD "" ++ " " ++ p.last_name.getD "")
    position                 := p.position.getD ""
    position_abbrev          := p.position_abbreviation.getD ""
    team                     := p.team.getD ""
    games_played             := s.games_played
    passing_completions      := s.passing_completions
    passing_attempts         := s.passing_attempts
    passing_yards            := s.passing_yards
    passing_touchdowns       := s.passing_touchdowns
    passing_interceptions    := s.passing_interceptions
    passing_yards_per_game   := s.passing_yards_per_game
    passing_completion_pct   := s.passing_completion_pct
    yards_per_pass_attempt   := s.yards_per_pass_attempt
    qbr                      := s.qbr
    rushing_attempts         := s.rushing_attempts
    rushing_yards            := s.rushing_yards
    rushing_touchdowns       := s.rushing_touchdowns
    rushing_yards_per_game   := s.rushing_yards_per_game
    yards_per_rush_attempt   := s.yards_per_rush_attempt
    rushing_fumbles          := s.rushing_fumbles
    rushing_fumbles_lost     := s.rushing_fumbles_lost
    rushing_first_downs      := s.rushing_first_downs
    receptions               := s.receptions
    receiving_targets        := s.receiving_targets
    receiving_yards          := s.receiving_yards
    receiving_touchdowns     := s.receiving_touchdowns
    receiving_yards_per_game := s.receiving_yards_per_game
    yards_per_reception      := s.yards_per_reception
    receiving_fumbles        := s.receiving_fumbles
    receiving_first_downs    := s.receiving_first_downs
    total_tackles            := s.total_tackles
    solo_tackles             := s.solo_tackles
    assist_tackles           := s.assist_tackles
    defensive_sacks          := s.defensive_sacks
    defensive_sack_yards     := s.defensive_sack_yards
    defensive_interceptions  := s.defensive_interceptions
    interception_touchdowns  := s.interception_touchdowns
    fumbles_forced           := s.fumbles_forced
    fumbles_recovered        := s.fumbles_recovered
    fumbles_touchdowns       := s.fumbles_touchdowns
    field_goal_attempts      := s.field_goal_attempts
    field_goals_made         := s.field_goals_made
    field_goal_pct           := s.field_goal_pct
    field_goals_made_1_19    := s.field_goals_made_1_19
    field_goals_made_20_29   := s.field_goals_made_20_29
    field_goals_made_30_39   := s.field_goals_made_30_39
    field_goals_made_40_49   := s.field_goals_made_40_49
    field_goals_made_50      := s.field_goals_made_50
    punts                    := s.punts
    punt_yards               := s.punt_yards }

/-- The natural key of `nfl_player_stats`:
`UNIQUE(season, postseason, player_id)`. -/
def nflKey (r : NflRow) : Int × Int × Option Int :=
  (r.season, r.postseason, r.player_id)

/-- Whether an existing row `r` conflicts with a newly inserted `row`
under `UNIQUE(season, postseason, player_id)`.  SQLite treats `NULL`s
in a unique constraint as distinct from one another, so a conflict
requires the `player_id`s to be equal *and non-NULL*; a row with a
`NULL` `player_id` conflicts with nothing. -/
def nflConflict (r row : NflRow) : Prop :=
  r.season = row.season ∧ r.postseason = row.postseason ∧
    r.player_id = row.player_id ∧ r.player_id ≠ none

instance (r row : NflRow) : Decidable (nflConflict r row) := by
  unfold nflConflict
  infer_instance

/-- `INSERT OR REPLACE INTO nfl_player_stats` of a single row: SQLite
deletes any row conflicting on the unique natural key, then inserts the
new row.  A row whose `player_id` is `NULL` conflicts with nothing
(`NULL`s are distinct under `UNIQUE`), so it is simply appended. -/
def upsertNfl (table : List NflRow) (row : NflRow) : List NflRow :=
  table.filter (fun r => decide (¬ nflConflict r row)) ++ [row]

/-- `load_player_stats`: build a row per record and `executemany` the
`INSERT OR REPLACE`, i.e. upsert the rows in order. -/
def loadPlayerStats (table : List NflRow) (stats : List RawNflStat)
    (season : Int) (postseason : Bool) : List NflRow :=
  (stats.map (mkNflRow season postseason)).foldl upsertNfl table

/-! ## Query helpers used by the statements -/

/-- The aggregate row of a given `(player_id, year)` in a built
`golf_player_season_stats` result set. -/
def findSeasonStat (stats : List SeasonStat) (pid : String) (yr : Int) :
    Option SeasonStat :=
  stats.find? (fun s => decide (s.player_id = pid ∧ s.year = yr))

/-- The `golf_results` rows matching a `(player_id, year)` group. -/
def matchingRows (rows : List GolfResult) (pid : String) (yr : Int) :
    List GolfResult :=
  rows.filter (fun r => decide (r.player_id = pid ∧ r.year = yr))

/-- The natural key of a `golf_results` row named by the spec:
`(entity, period, tournament)`. -/
def golfNaturalKey (r : GolfResult) : String × Int × String :=
  (r.player_id, r.year, r.tourn_id)

/-- The natural-key tuples of the `nfl_player_stats` rows whose
`player_id` is non-`NULL` — exactly the tuples over which the SQLite
`UNIQUE(season, postseason, player_id)` constraint enforces
uniqueness (`NULL`s are distinct and unconstrained). -/
def nflSomeKeys (T : List NflRow) : List (Int × Int × Int) :=
  T.filterMap (fun r => r.player_id.map (fun pid => (r.season, r.postseason, pid)))

/-! ## Concrete test fixtures -/

/-- A leaderboard entry finishing `"T5"`. -/
def posT5Player : RawGolfPlayer :=
  { position := "T5", status := "", playerId := "p5", firstName := "Ann",
    lastName := "Lee", total := "-8", totalStrokes := "276", isAmateur := false }

/-- A leaderboard entry winning with position `"1"`. -/
def pos1Player : RawGolfPlayer :=
  { position := "1", status := "", playerId := "p1", firstName := "Bo",
    lastName := "Kim", total := "-20", totalStrokes := "268", isAmateur := false }

/-- A leaderboard entry for the same player finishing `"3"` elsewhere. -/
def rank3Player : RawGolfPlayer :=
  { position := "3", status := "", playerId := "p1", firstName := "Bo",
    lastName := "Kim", total := "-10", totalStrokes := "274", isAmateur := false }

/-- A leaderboard entry that missed the cut. -/
def cutPlayer : RawGolfPlayer :=
  { position := "CUT", status := "CUT", playerId := "p2", firstName := "Cy",
    lastName := "Fox", total := "+4", totalStrokes := "", isAmateur := false }

/-- A leaderboard entry that withdrew. -/
def wdPlayer : RawGolfPlayer :=
  { position := "WD", status := "WD", playerId := "p3", firstName := "Di",
    lastName := "Ray", total := "", totalStrokes := "", isAmateur := false }

/-- One concrete `golf_results` row. -/
def sampleGolfResult : GolfResult :=
  mkGolfResult "006" 2024 "Tournament A" pos1Player

/-- Two results of the same player and year in different tournaments
(ranks 1 and 3). -/
def golfRowsSample : List GolfResult :=
  [mkGolfResult "006" 2024 "Tournament A" pos1Player,
   mkGolfResult "007" 2024 "Tournament B" rank3Player]

/-- A skater summary record with zero shots. -/
def sampleApiSkater : RawApiSkater :=
  { playerId := some 8478402, skaterFullName := "Connor McDavid",
    teamAbbrevs := "EDM", positionCode := "C", gamesPlayed := some 5,
    goals := some 0, assists := some 2, points := some 3,
    plusMinus := some 1, penaltyMinutes := some 0, ppGoals := some 0,
    ppPoints := some 1, shGoals := some 0, gameWinningGoals := some 0,
    shots := some 0, hits := some 3, blockedShots := some 1,
    timeOnIcePerGame := "20:00" }

/-- The collector's JSON record for `sampleApiSkater`. -/
def sampleSkaterJson : SkaterJson :=
  collectSkaterRecord "20242025" sampleApiSkater

/-- A minimal NFL player object. -/
def sampleNflPlayer : RawNflPlayer :=
  { id := some 42, first_name := some "Pat", last_name := some "Doe",
    position := some "Quarterback", position_abbreviation := some "QB",
    team := none }

/-- A season-stats record for `sampleNflPlayer` with every stat absent. -/
def sampleNflStat : RawNflStat :=
  { player := sampleNflPlayer
    games_played := none, passing_completions := none,
    passing_attempts := none, passing_yards := none,
    passing_touchdowns := none, passing_interceptions := none,
    passing_yards_per_game := none, passing_completion_pct := none,
    yards_per_pass_attempt := none, qbr := none, rushing_attempts := none,
    rushing_yards := none, rushing_touchdowns := none,
    rushing_yards_per_game := none, yards_per_rush_attempt := none,
    rushing_fumbles := none, rushing_fumbles_lost := none,
    rushing_first_downs := none, receptions := none,
    receiving_targets := none, receiving_yards := none,
    receiving_touchdowns := none, receiving_yards_per_game := none,
    yards_per_reception := none, receiving_fumbles := none,
    receiving_first_downs := none, total_tackles := none,
    solo_tackles := none, assist_tackles := none, defensive_sacks := none,
    defensive_sack_yards := none, defensive_interceptions := none,
    interception_touchdowns := none, fumbles_forced := none,
    fumbles_recovered := none, fumbles_touchdowns := none,
    field_goal_attempts := none, field_goals_made := none,
    field_goal_pct := none, field_goals_made_1_19 := none,
    field_goals_made_20_29 := none, field_goals_made_30_39 := none,
    field_goals_made_40_49 := none, field_goals_made_50 := none,
    punts := none, punt_yards := none }

/-! # Theorems -/

/-- C8: Golf finish-position normalization on the literal inputs:
`"1"` parses to rank 1, `"T5"` to rank 5 (tie marker stripped), `"CUT"`
and `"WD"` to no numeric rank; and the derived flags are correct: a
`"T5"` row gets `top_5 = 1`, `top_10 = 1`, `win = 0`; a rank-1 row gets
`win = 1`; a `"CUT"`/`"WD"` row gets `made_cut = 0` and no numeric rank
(so neither rank 0 nor rank 1). -/
theorem golf_position_parsing_cases :
    parsePosition "1" = some 1 ∧
    parsePosition "T5" = some 5 ∧
    parsePosition "CUT" = none ∧
    parsePosition "WD" = none ∧
    (mkGolfResult "006" 2024 "T" posT5Player).top_5 = 1 ∧
    (mkGolfResult "006" 2024 "T" posT5Player).top_10 = 1 ∧
    (mkGolfResult "006" 2024 "T" posT5Player).win = 0 ∧
    (mkGolfResult "006" 2024 "T" pos1Player).win = 1 ∧
    (mkGolfResult "006" 2024 "T" cutPlayer).made_cut = 0 ∧
    (mkGolfResult "006" 2024 "T" cutPlayer).position_num = none ∧
    (mkGolfResult "006" 2024 "T" wdPlayer).made_cut = 0 ∧
    (mkGolfResult "006" 2024 "T" wdPlayer).position_num = none := by
  decide

/-- C10: `load_goalie_stats` writes `losses = NULL` and
`ot_losses = NULL` unconditionally, whatever the input record holds,
while `wins`, `save_pct`, `gaa` and `shutouts` are carried through; the
collector, in contrast, does gather `losses` and `ot_losses`. -/
theorem goalie_losses_forced_null (season : String) (g : GoalieJson)
    (raw : RawApiGoalie) :
    (loadGoalieRow season g).losses = none ∧
    (loadGoalieRow season g).ot_losses = none ∧
    (loadGoalieRow season g).wins = g.wins ∧
    (loadGoalieRow season g).save_pct = g.save_pct ∧
    (loadGoalieRow season g).gaa = g.gaa ∧
    (loadGoalieRow season g).shutouts = g.shutouts ∧
    (collectGoalieRecord season raw).losses = raw.losses ∧
    (collectGoalieRecord season raw).ot_losses = raw.otLosses :=
  ⟨rfl, rfl, rfl, rfl, rfl, rfl, rfl, rfl⟩

/-- The clock never moves backwards across one rate-limited request. -/
theorem rateLimitStep_now_le (st : RLState) (d : ℚ) (hd : 0 ≤ d) :
    st.now ≤ (rateLimitStep st d).now := by
  unfold rateLimitStep
  dsimp only
  split
  · linarith
  · linarith

/-- After a request, `_last_request_time` equals the clock. -/
theorem rateLimitStep_last_eq (st : RLState) (d : ℚ) :
    (rateLimitStep st d).last = (rateLimitStep st d).now := rfl

/-- From a state just stamped (`last = now`), every further request
advances the clock by at least the minimum delay. -/
theorem runRequests_stamped_lower_bound (durs : List ℚ) :
    ∀ st : RLState, st.last = st.now → (∀ d ∈ durs, 0 ≤ d) →
      st.now + (durs.length : ℚ) * RATE_LIMIT_DELAY ≤ (runRequests st durs).now := by
  induction durs with
  | nil => intro st _ _; simp [runRequests]
  | cons d rest ih =>
      intro st hst hd
      have hd0 : 0 ≤ d := hd d (by simp)
      have hstep : (rateLimitStep st d).now = st.now + RATE_LIMIT_DELAY + d := by
        unfold rateLimitStep
        dsimp only
        rw [hst]
        rw [if_pos (by norm_num [RATE_LIMIT_DELAY])]
        ring
      have hrun : runRequests st (d :: rest) = runRequests (rateLimitStep st d) rest := rfl
      have hrest := ih (rateLimitStep st d) (rateLimitStep_last_eq st d)
        (fun x hx => hd x (by simp [hx]))
      rw [hrun]
      have hlen : ((d :: rest).length : ℚ) = (rest.length : ℚ) + 1 := by
        push_cast [List.length_cons]; ring
      rw [hlen, hstep] at *
      linarith

/-- C6: rate limiting.  Before each network call the client sleeps the
remainder of the minimum delay since the last outbound request, so `N`
consecutive cache-missing requests advance the wall clock by at least
`(N − 1) × RATE_LIMIT_DELAY`. -/
theorem nhl_rate_limit_lower_bound (st : RLState) (durs : List ℚ)
    (hd : ∀ d ∈ durs, 0 ≤ d) :
    st.now + ((durs.length : ℚ) - 1) * RATE_LIMIT_DELAY ≤ (runRequests st durs).now := by
  cases durs with
  | nil => simp [runRequests]; norm_num [RATE_LIMIT_DELAY]
  | cons d rest =>
      have hd0 : 0 ≤ d := hd d (by simp)
      have h1 : st.now ≤ (rateLimitStep st d).now := rateLimitStep_now_le st d hd0
      have h2 := runRequests_stamped_lower_bound rest (rateLimitStep st d)
        (rateLimitStep_last_eq st d) (fun x hx => hd x (by simp [hx]))
      have hrun : runRequests st (d :: rest) = runRequests (rateLimitStep st d) rest := rfl
      have hlen : (((d :: rest).length : ℚ) - 1) = (rest.length : ℚ) := by
        push_cast [List.length_cons]; ring
      rw [hrun, hlen]
      linarith

/-- Witness for C6 at a concrete input: three zero-duration requests
from a fresh client take at least `2 × RATE_LIMIT_DELAY`. -/
theorem nhl_rate_limit_lower_bound_witness :
    RLState.now ⟨0, 0⟩ + ((([0, 0, 0] : List ℚ).length : ℚ) - 1) * RATE_LIMIT_DELAY ≤
      (runRequests ⟨0, 0⟩ [0, 0, 0]).now :=
  nhl_rate_limit_lower_bound ⟨0, 0⟩ [0, 0, 0] (by decide)

/-- Counterexample to C1 as stated: loading the same single-result
leaderboard twice (the second collector run replays the cached raw file)
leaves `golf_results` with two rows instead of one, and likewise
re-loading a skater season file duplicates `skater_stats`: the second
run does not leave these Fact tables in the state of the first. -/
theorem golf_and_skater_rerun_duplicates :
    loadResults (loadResults [] [sampleGolfResult]) [sampleGolfResult] ≠
      loadResults [] [sampleGolfResult] ∧
    loadSkaterStatsTable (loadSkaterStatsTable [] "20242025" [sampleSkaterJson])
        "20242025" [sampleSkaterJson] ≠
      loadSkaterStatsTable [] "20242025" [sampleSkaterJson] := by
  constructor <;>
    · intro h
      have hl := congrArg List.length h
      simp [loadResults, loadSkaterStatsTable] at hl

/-- Counterexample to C2 as stated: after two collector runs the
`golf_results` table holds two rows with the same natural key
`(player_id, year, tourn_id)`. -/
theorem golf_natural_key_collision :
    ¬ (((loadResults (loadResults [] [sampleGolfResult]) [sampleGolfResult]).map
        golfNaturalKey).Nodup) := by
  decide

/-- Counterexample to C3 as stated: rebuilding the aggregate table from
an unchanged `golf_results` changes the surrogate `id` column of every
aggregate row, because the `AUTOINCREMENT` sequence is not reset by the
`DELETE`; the rows are not byte-identical in every column. -/
theorem golf_aggregate_surrogate_id_changes :
    (buildSeasonStatsState [sampleGolfResult]
        (buildSeasonStatsState [sampleGolfResult] ⟨[], 0⟩)).rows.map Prod.fst ≠
      (buildSeasonStatsState [sampleGolfResult] ⟨[], 0⟩).rows.map Prod.fst := by
  decide

/-- Counterexample to C5 as stated: a cache entry whose payload is the
JSON value `null`, although present and fresh (age 10 ≤ TTL 3600), is
not served: `json.loads` returns Python `None` for it, `_get` treats it
as a miss and performs a network call. -/
theorem nhl_cache_null_payload_refetched :
    (10 : ℚ) - 0 ≤ 3600 ∧
    (clientGet ⟨true, 3600, [⟨"k", Json.null, 0⟩], 10, 0, 0⟩ "k" (some 3600)
        (Json.num 7) 1).2.netCalls = 1 ∧
    (clientGet ⟨true, 3600, [⟨"k", Json.null, 0⟩], 10, 0, 0⟩ "k" (some 3600)
        (Json.num 7) 1).1 = Json.num 7 := by
  refine ⟨by norm_num, ?_, ?_⟩ <;>
    · simp only [clientGet, readCache, writeCache, List.find?]
      norm_num

/-- Counterexample to C7 as stated: the NHL skater pagination loop hits
a failure on its second page, catches it, and returns (and then
persists) the records accumulated from the first page instead of
discarding them and propagating the failure. -/
theorem nhl_pagination_partial_persisted :
    collectSkaterStats "20242025"
        [Except.ok ⟨[sampleApiSkater], 250⟩, Except.error "HTTP 500"] =
      [collectSkaterRecord "20242025" sampleApiSkater] ∧
    [collectSkaterRecord "20242025" sampleApiSkater] ≠ ([] : List SkaterJson) := by
  exact ⟨rfl, by decide⟩

/-- Counterexample to C9 as stated: a collector-produced skater record
with zero shots flows through `load_skater_stats` into a row whose
`shooting_pct` is `NULL`, not `0`: the collector's `0.0` is falsy, so
the loader's `or`-chain recomputes and stores `None`. -/
theorem skater_shooting_pct_zero_shots_null :
    (loadSkaterRow "20242025" sampleSkaterJson).shots = 0 ∧
    (loadSkaterRow "20242025" sampleSkaterJson).shooting_pct = none := by
  decide

/-- C3 (amended): apart from the `AUTOINCREMENT` surrogate `id` column,
the rebuilt aggregate table is a pure function of the current
`golf_results` contents — the builder deletes everything and recomputes —
so two consecutive builds over unchanged facts agree on every data
column of every row. -/
theorem golf_aggregate_pure_function_of_facts (facts : List GolfResult) (st : AggState) :
    (buildSeasonStatsState facts st).rows.map Prod.snd = buildSeasonStats facts ∧
    (buildSeasonStatsState facts (buildSeasonStatsState facts st)).rows.map Prod.snd =
      (buildSeasonStatsState facts st).rows.map Prod.snd := by
  have key : ∀ s : AggState,
      (buildSeasonStatsState facts s).rows.map Prod.snd = buildSeasonStats facts := by
    intro s
    unfold buildSeasonStatsState
    dsimp only
    rw [List.map_map]
    have hcomp : (Prod.snd ∘ fun p : Nat × SeasonStat => (s.seq + 1 + p.1, p.2)) =
        Prod.snd := rfl
    rw [hcomp]
    exact List.map_snd_zip _ _ (by simp)
  exact ⟨key st, (key _).trans (key st).symm⟩

/-- C5 (amended): through `_get`, a cache entry for the requested key
that is fresh (age ≤ TTL) and whose payload is not JSON `null` is
returned as-is with the client state untouched — zero network calls, no
rate-limit sleep, `_last_request_time` unchanged; and an entry older
than its TTL is treated as absent: the fresh fetch's response is
returned and exactly one network call happens. -/
theorem nhl_cache_fresh_hit_and_expiry (st : ClientState) (key : String) (ttl : ℚ)
    (e : CacheEntry) (resp : Json) (netDur : ℚ)
    (huse : st.useCache = true)
    (hfind : st.cache.find? (fun x => x.key == key) = some e) :
    (st.now - e.mtime ≤ ttl → e.payload ≠ Json.null →
        clientGet st key (some ttl) resp netDur = (e.payload, st)) ∧
    (ttl < st.now - e.mtime →
        (clientGet st key (some ttl) resp netDur).1 = resp ∧
        ((clientGet st key (some ttl) resp netDur).2).netCalls = st.netCalls + 1) := by
  constructor
  · intro hfresh hnull
    have hrc : readCache st key ttl = some e.payload := by
      unfold readCache
      rw [hfind]
      dsimp only
      rw [if_neg (show ¬(st.now - e.mtime > ttl) from not_lt.mpr hfresh)]
      cases hp : e.payload with
      | null => exact absurd hp hnull
      | num q => rfl
      | str s => rfl
    unfold clientGet
    simp [huse, hrc]
  · intro hexp
    have hrc : readCache st key ttl = none := by
      unfold readCache
      rw [hfind]
      dsimp only
      rw [if_pos (show st.now - e.mtime > ttl from hexp)]
    unfold clientGet
    simp [huse, hrc, writeCache]

/-- Witness for C5 at concrete inputs: a fresh non-null entry (age 10,
TTL 3600) is served with the state untouched, and an expired entry
(age 5000, TTL 3600) triggers exactly one network call returning the
fresh response. -/
theorem nhl_cache_fresh_hit_and_expiry_witness :
    clientGet ⟨true, 3600, [⟨"k", Json.num 5, 0⟩], 10, 0, 0⟩ "k" (some 3600)
        (Json.num 9) 1 =
      (Json.num 5, ⟨true, 3600, [⟨"k", Json.num 5, 0⟩], 10, 0, 0⟩) ∧
    (clientGet ⟨true, 3600, [⟨"k", Json.num 5, 0⟩], 5000, 0, 0⟩ "k" (some 3600)
        (Json.num 9) 1).1 = Json.num 9 ∧
    (clientGet ⟨true, 3600, [⟨"k", Json.num 5, 0⟩], 5000, 0, 0⟩ "k" (some 3600)
        (Json.num 9) 1).2.netCalls = 0 + 1 := by
  refine ⟨?_, ?_, ?_⟩
  · exact (nhl_cache_fresh_hit_and_expiry ⟨true, 3600, [⟨"k", Json.num 5, 0⟩], 10, 0, 0⟩
      "k" 3600 ⟨"k", Json.num 5, 0⟩ (Json.num 9) 1 rfl rfl).1 (by norm_num) (by decide)
  · exact ((nhl_cache_fresh_hit_and_expiry ⟨true, 3600, [⟨"k", Json.num 5, 0⟩], 5000, 0, 0⟩
      "k" 3600 ⟨"k", Json.num 5, 0⟩ (Json.num 9) 1 rfl rfl).2 (by norm_num)).1
  · exact ((nhl_cache_fresh_hit_and_expiry ⟨true, 3600, [⟨"k", Json.num 5, 0⟩], 5000, 0, 0⟩
      "k" 3600 ⟨"k", Json.num 5, 0⟩ (Json.num 9) 1 rfl rfl).2 (by norm_num)).2

/-- C7 (amended, NFL half): if a page of an `_get_all_pages` drain fails
after retries — every earlier page having continued the chain — the
exception propagates to the caller and the records accumulated from the
earlier pages are discarded: the call's result is the error, not a
partial list. -/
theorem nfl_page_failure_propagates {α : Type} (pre : List (PageOf α)) (e : String)
    (rest : List (Except String (PageOf α))) (acc : List α)
    (h : ∀ p ∈ pre, p.data ≠ [] ∧ p.nextCursor ≠ none) :
    getAllPages (pre.map Except.ok ++ Except.error e :: rest) acc = Except.error e := by
  induction pre generalizing acc with
  | nil => rfl
  | cons p ps ih =>
      obtain ⟨hd, hc⟩ := h p (List.mem_cons_self p ps)
      have hcond : (p.nextCursor.isNone || p.data.isEmpty) = false := by
        cases hnc : p.nextCursor with
        | none => exact absurd hnc hc
        | some c =>
            cases hda : p.data with
            | nil => exact absurd hda hd
            | cons x xs => simp [hnc, hda]
      simp only [List.map_cons, List.cons_append, getAllPages, hcond, if_false,
        Bool.false_eq_true]
      exact ih (acc ++ p.data) (fun q hq => h q (List.mem_cons_of_mem p hq))

/-- Witness for C7 at a concrete input: a first page with one record and
a live cursor followed by a failing page yields the error, with the
first page's record gone. -/
theorem nfl_page_failure_propagates_witness :
    getAllPages (([(⟨[1], some "c"⟩ : PageOf Nat)]).map Except.ok ++
        Except.error "boom" :: []) [] = Except.error "boom" :=
  nfl_page_failure_propagates [⟨[1], some "c"⟩] "boom" [] [] (by decide)

/-- A Python `x.get(k) or 0` applied to a value that is itself already
`v or 0` (or any present integer) returns that integer unchanged. -/
theorem pyOrInt_some_zero (x : Int) : pyOrInt (some x) 0 = x := by
  by_cases h : x = 0 <;> simp [pyOrInt, h]

/-- C9 (amended): at collection time `shooting_pct` is
`round(goals/shots × 100, 1)` when `shots > 0` and `0.0` when not, and
the per-game rates are computed (3 decimals) exactly when
`games_played > 0` (else `0.0`); at database-load time the same
formulas apply when the denominators are positive, but the stored value
is `NULL` — not `0` — when `shots = 0` respectively `games_played = 0`,
because the loader's `or`-chain treats the collector's falsy `0.0` as
missing. -/
theorem skater_rate_stats_pipeline (season : String) (p : RawApiSkater) :
    (collectSkaterRecord season p).shooting_pct =
      some (if pyOrInt p.shots 0 > 0
            then pyRound ((pyOrInt p.goals 0 : ℚ) / (pyOrInt p.shots 0 : ℚ) * 100) 1
            else 0) ∧
    (collectSkaterRecord season p).points_per_game =
      some (if pyOrInt p.gamesPlayed 0 > 0
            then pyRound ((pyOrInt p.points 0 : ℚ) / (pyOrInt p.gamesPlayed 0 : ℚ)) 3
            else 0) ∧
    (collectSkaterRecord season p).goals_per_game =
      some (if pyOrInt p.gamesPlayed 0 > 0
            then pyRound ((pyOrInt p.goals 0 : ℚ) / (pyOrInt p.gamesPlayed 0 : ℚ)) 3
            else 0) ∧
    (loadSkaterRow season (collectSkaterRecord season p)).shooting_pct =
      (if pyOrInt p.shots 0 > 0
       then some (pyRound ((pyOrInt p.goals 0 : ℚ) / (pyOrInt p.shots 0 : ℚ) * 100) 1)
       else none) ∧
    (loadSkaterRow season (collectSkaterRecord season p)).points_per_game =
      (if pyOrInt p.gamesPlayed 0 > 0
       then some (pyRound ((pyOrInt p.points 0 : ℚ) / (pyOrInt p.gamesPlayed 0 : ℚ)) 3)
       else none) ∧
    (loadSkaterRow season (collectSkaterRecord season p)).goals_per_game =
      (if pyOrInt p.gamesPlayed 0 > 0
       then some (pyRound ((pyOrInt p.goals 0 : ℚ) / (pyOrInt p.gamesPlayed 0 : ℚ)) 3)
       else none) := by
  refine ⟨rfl, rfl, rfl, ?_, ?_, ?_⟩ <;>
    · simp only [loadSkaterRow, collectSkaterRecord, pyOrInt_some_zero, pyOrQ]
      split_ifs <;> simp_all

/-- For a row with a non-`NULL` `player_id`, the `OR REPLACE` conflict
predicate coincides with equality of natural keys, so the upsert
replaces exactly the rows sharing the new row's key. -/
theorem upsertNfl_some (T : List NflRow) (row : NflRow) (h : row.player_id ≠ none) :
    upsertNfl T row = T.filter (fun r => decide (nflKey r ≠ nflKey row)) ++ [row] := by
  unfold upsertNfl
  congr 1
  apply List.filter_congr
  intro r _
  rw [decide_eq_decide]
  apply not_congr
  unfold nflConflict nflKey
  simp only [Prod.mk.injEq]
  constructor
  · rintro ⟨h1, h2, h3, _⟩
    exact ⟨h1, h2, h3⟩
  · rintro ⟨h1, h2, h3⟩
    refine ⟨h1, h2, h3, ?_⟩
    rw [h3]
    exact h

/-- Folding upserts of rows that all carry a non-`NULL` `player_id`
over a table splits into the rows of the table whose natural key is not
among the inserted keys, followed by the result of folding the same
upserts over the empty table. -/
theorem foldl_upsert_decomp (rows : List NflRow)
    (hrows : ∀ r ∈ rows, r.player_id ≠ none) :
    ∀ T : List NflRow, rows.foldl upsertNfl T =
      T.filter (fun r => decide (nflKey r ∉ rows.map nflKey)) ++ rows.foldl upsertNfl [] := by
  induction rows with
  | nil => intro T; simp
  | cons a as ih =>
      intro T
      have ha : a.player_id ≠ none := hrows a (List.mem_cons_self a as)
      have has : ∀ r ∈ as, r.player_id ≠ none :=
        fun r hr => hrows r (List.mem_cons_of_mem a hr)
      rw [List.foldl_cons, ih has (upsertNfl T a), List.foldl_cons, ih has (upsertNfl [] a),
        ← List.append_assoc]
      congr 1
      rw [upsertNfl_some T a ha, upsertNfl_some [] a ha, List.filter_append,
        List.filter_filter]
      congr 1
      apply List.filter_congr
      intro r _
      by_cases h1 : nflKey r = nflKey a <;> by_cases h2 : nflKey r ∈ as.map nflKey <;>
        simp [h1, h2]

/-- Every row produced by folding upserts carries either a key of the
inserted rows or comes from the initial table. -/
theorem mem_foldl_upsert (rows : List NflRow) :
    ∀ (T : List NflRow) (r : NflRow), r ∈ rows.foldl upsertNfl T →
      r ∈ T ∨ nflKey r ∈ rows.map nflKey := by
  induction rows with
  | nil => intro T r hr; simp at hr; exact Or.inl hr
  | cons a as ih =>
      intro T r hr
      rw [List.foldl_cons] at hr
      rcases ih (upsertNfl T a) r hr with h | h
      · unfold upsertNfl at h
        rcases List.mem_append.mp h with h' | h'
        · exact Or.inl (List.mem_of_mem_filter h')
        · have hra : r = a := by simpa using h'
          subst hra
          exact Or.inr (by simp)
      · exact Or.inr (by simp [h])

/-- C1 (amended): only the NFL loader upserts by natural key, and it is
idempotent exactly for records carrying a non-`NULL` player id: with
every record's `player.id` present, re-running `load_player_stats` with
the same collected records leaves `nfl_player_stats` in the state of
the first run.  (A `NULL` `player_id` never conflicts under SQLite's
`UNIQUE` — `NULL`s are pairwise distinct — so such rows would be
appended again; and the golf and NHL Fact-table loads append
unconditionally, see the counterexample.) -/
theorem nfl_load_player_stats_idempotent (T : List NflRow) (stats : List RawNflStat)
    (season : Int) (postseason : Bool)
    (hids : ∀ s ∈ stats, s.player.id ≠ none) :
    loadPlayerStats (loadPlayerStats T stats season postseason) stats season postseason =
      loadPlayerStats T stats season postseason := by
  unfold loadPlayerStats
  have hrows : ∀ r ∈ stats.map (mkNflRow season postseason), r.player_id ≠ none := by
    intro r hr
    obtain ⟨s, hs, rfl⟩ := List.mem_map.mp hr
    exact hids s hs
  have hdecomp := foldl_upsert_decomp (stats.map (mkNflRow season postseason)) hrows
  rw [hdecomp ((stats.map (mkNflRow season postseason)).foldl upsertNfl T), hdecomp T,
    List.filter_append, List.filter_filter]
  have h1 : T.filter (fun r =>
        decide (nflKey r ∉ (stats.map (mkNflRow season postseason)).map nflKey) &&
        decide (nflKey r ∉ (stats.map (mkNflRow season postseason)).map nflKey)) =
      T.filter (fun r =>
        decide (nflKey r ∉ (stats.map (mkNflRow season postseason)).map nflKey)) :=
    List.filter_congr (fun r _ => Bool.and_self _)
  have h2 : ((stats.map (mkNflRow season postseason)).foldl upsertNfl []).filter
      (fun r => decide (nflKey r ∉ (stats.map (mkNflRow season postseason)).map nflKey)) =
      [] := by
    rw [List.filter_eq_nil_iff]
    intro r hr
    have hmem := mem_foldl_upsert (stats.map (mkNflRow season postseason)) [] r hr
    simp only [List.not_mem_nil, false_or] at hmem
    simp only [decide_eq_true_eq]
    exact fun hc => hc hmem
  rw [h1, h2]
  simp

/-- Witness for C1 at a concrete input: re-loading one record with a
present player id into an empty table changes nothing. -/
theorem nfl_load_player_stats_idempotent_witness :
    loadPlayerStats (loadPlayerStats [] [sampleNflStat] 2024 false) [sampleNflStat]
        2024 false =
      loadPlayerStats [] [sampleNflStat] 2024 false :=
  nfl_load_player_stats_idempotent [] [sampleNflStat] 2024 false (by decide)

/-- C2 (amended): the `nfl_player_stats` unique constraint together
with `INSERT OR REPLACE` preserves uniqueness of the natural-key tuples
of rows with a non-`NULL` `player_id` across any collector run — the
exact guarantee SQLite's `UNIQUE(season, postseason, player_id)` gives,
since rows with `NULL` `player_id` are mutually distinct to it and
unconstrained.  The golf and NHL Fact tables have no natural-key
constraint at all and accumulate duplicates (see the counterexample). -/
theorem nfl_natural_key_uniqueness_preserved (T : List NflRow) (stats : List RawNflStat)
    (season : Int) (postseason : Bool) (h : (nflSomeKeys T).Nodup) :
    (nflSomeKeys (loadPlayerStats T stats season postseason)).Nodup := by
  unfold loadPlayerStats
  generalize (stats.map (mkNflRow season postseason)) = rows
  induction rows generalizing T with
  | nil => exact h
  | cons a as ih =>
      rw [List.foldl_cons]
      apply ih
      unfold upsertNfl nflSomeKeys
      unfold nflSomeKeys at h
      rw [List.filterMap_append]
      have hTnodup : ((T.filter (fun r => decide (¬ nflConflict r a))).filterMap
          (fun r => r.player_id.map (fun pid => (r.season, r.postseason, pid)))).Nodup :=
        List.Nodup.sublist (List.Sublist.filterMap _ (List.filter_sublist T)) h
      cases hpa : a.player_id with
      | none =>
          have hnil : ([a].filterMap
              (fun r => r.player_id.map (fun pid => (r.season, r.postseason, pid)))) = [] := by
            simp [hpa]
          rw [hnil, List.append_nil]
          exact hTnodup
      | some pid =>
          have hone : ([a].filterMap
              (fun r => r.player_id.map (fun pid => (r.season, r.postseason, pid)))) =
              [(a.season, a.postseason, pid)] := by
            simp [hpa]
          rw [hone]
          apply List.Nodup.append hTnodup (by simp)
          intro x hx hx2
          simp only [List.mem_singleton] at hx2
          obtain ⟨r, hr, hfr⟩ := List.mem_filterMap.mp hx
          obtain ⟨p', hp', hfp⟩ := Option.map_eq_some'.mp hfr
          have hnc : ¬ nflConflict r a := by
            have := (List.mem_filter.mp hr).2
            simpa using this
          apply hnc
          rw [hx2] at hfp
          obtain ⟨hs, hpo, hpi⟩ : r.season = a.season ∧ r.postseason = a.postseason ∧
              p' = pid := by
            have hcomp := hfp
            simp only [Prod.mk.injEq] at hcomp
            exact ⟨hcomp.1, hcomp.2.1, hcomp.2.2⟩
          refine ⟨hs, hpo, ?_, ?_⟩
          · rw [hp', hpi, hpa]
          · rw [hp']
            simp

/-- Witness for C2 at a concrete input: loading one record into an empty
table yields a table whose non-`NULL` natural keys are unique. -/
theorem nfl_natural_key_uniqueness_witness :
    (nflSomeKeys ([] : List NflRow)).Nodup ∧
    (nflSomeKeys (loadPlayerStats [] [sampleNflStat] 2024 false)).Nodup :=
  ⟨by simp [nflSomeKeys],
    nfl_natural_key_uniqueness_preserved [] [sampleNflStat] 2024 false
      (by simp [nflSomeKeys])⟩

/-- The aggregate row built for a key exposes that key. -/
theorem mkSeasonStat_player_id (k : String × Int) (grp : List GolfResult) :
    (mkSeasonStat k grp).player_id = k.1 := rfl

/-- The aggregate row built for a key exposes that key's year. -/
theorem mkSeasonStat_year (k : String × Int) (grp : List GolfResult) :
    (mkSeasonStat k grp).year = k.2 := rfl

/-- Searching a keyed map of aggregate rows for a present key finds the
row built for that key (the group function depends only on the key). -/
theorem find_mkSeasonStat (g : String × Int → List GolfResult) (pid : String) (yr : Int) :
    ∀ K : List (String × Int), (pid, yr) ∈ K →
      (K.map (fun k => mkSeasonStat k (g k))).find?
          (fun s => decide (s.player_id = pid ∧ s.year = yr)) =
        some (mkSeasonStat (pid, yr) (g (pid, yr))) := by
  intro K
  induction K with
  | nil => intro hmem; cases hmem
  | cons k ks ih =>
      intro hmem
      by_cases hk : k = (pid, yr)
      · subst hk
        rw [List.map_cons]
        exact List.find?_cons_of_pos _ (decide_eq_true ⟨rfl, rfl⟩)
      · rw [List.map_cons, List.find?_cons_of_neg]
        · refine ih ?_
          rcases List.mem_cons.mp hmem with h | h
          · exact absurd h.symm hk
          · exact h
        · simp only [mkSeasonStat_player_id, mkSeasonStat_year, decide_eq_true_eq]
          rintro ⟨h1, h2⟩
          exact hk (Prod.ext h1 h2)

/-- The lookup of a present `(player, year)` group in the builder's
result set returns the row aggregated from that group's fact rows. -/
theorem findSeasonStat_build (rows : List GolfResult) (pid : String) (yr : Int)
    (hmem : (pid, yr) ∈ ((validRows rows).map resultKey).dedup) :
    findSeasonStat (buildSeasonStats rows) pid yr =
      some (mkSeasonStat (pid, yr)
        ((validRows rows).filter (fun r => decide (resultKey r = (pid, yr))))) :=
  find_mkSeasonStat
    (fun k => (validRows rows).filter (fun r => decide (resultKey r = k)))
    pid yr (((validRows rows).map resultKey).dedup) hmem

/-- C4: for every `(player, year)` group present in `golf_results`, the
built aggregate row has `events` equal to the number of matching fact
rows (in particular nonzero, so the percentage denominators are never
zero), `cut_pct = round1(cuts_made / events × 100)` and
`win_pct = round1(wins / events × 100)`, and `best_finish` /
`worst_finish` equal to the minimum / maximum `position_num` over the
group's rows that have a numeric rank. -/
theorem golf_aggregate_row_correct (rows : List GolfResult) (pid : String) (yr : Int)
    (hpid : pid ≠ "")
    (hmem : ∃ r ∈ rows, r.player_id = pid ∧ r.year = yr) :
    ∃ s, findSeasonStat (buildSeasonStats rows) pid yr = some s ∧
      s.events = ((matchingRows rows pid yr).length : Int) ∧
      0 < s.events ∧
      s.cuts_made = ((matchingRows rows pid yr).map (fun r => r.made_cut)).sum ∧
      s.wins = ((matchingRows rows pid yr).map (fun r => r.win)).sum ∧
      s.cut_pct = sqlRound1 ((s.cuts_made : ℚ) / (s.events : ℚ) * 100) ∧
      s.win_pct = sqlRound1 ((s.wins : ℚ) / (s.events : ℚ) * 100) ∧
      s.best_finish = optMin ((matchingRows rows pid yr).filterMap (fun r => r.position_num)) ∧
      s.worst_finish = optMax ((matchingRows rows pid yr).filterMap (fun r => r.position_num)) := by
  obtain ⟨r0, hr0, hk1, hk2⟩ := hmem
  have hval : r0 ∈ validRows rows := by
    unfold validRows
    rw [List.mem_filter]
    exact ⟨hr0, by simp [hk1, hpid]⟩
  have hmemK : (pid, yr) ∈ ((validRows rows).map resultKey).dedup := by
    rw [List.mem_dedup]
    exact List.mem_map.mpr ⟨r0, hval, by simp [resultKey, hk1, hk2]⟩
  have hgrp : (validRows rows).filter (fun r => decide (resultKey r = (pid, yr))) =
      matchingRows rows pid yr := by
    unfold validRows matchingRows
    rw [List.filter_filter]
    apply List.filter_congr
    intro r _
    by_cases h1 : r.player_id = pid <;> by_cases h2 : r.year = yr <;>
      simp [resultKey, Prod.ext_iff, h1, h2, hpid]
  have hfind := findSeasonStat_build rows pid yr hmemK
  rw [hgrp] at hfind
  have hnonempty : r0 ∈ matchingRows rows pid yr := by
    unfold matchingRows
    rw [List.mem_filter]
    exact ⟨hr0, by simp [hk1, hk2]⟩
  refine ⟨mkSeasonStat (pid, yr) (matchingRows rows pid yr), hfind, rfl, ?_,
    rfl, rfl, rfl, rfl, rfl, rfl⟩
  show 0 < ((matchingRows rows pid yr).length : Int)
  exact_mod_cast List.length_pos.mpr (List.ne_nil_of_mem hnonempty)

/-- Witness for C4 at a concrete input: two results of player `"p1"` in
2024 (ranks 1 and 3) produce an aggregate row satisfying every stated
equation. -/
theorem golf_aggregate_row_correct_witness :
    ∃ s, findSeasonStat (buildSeasonStats golfRowsSample) "p1" 2024 = some s ∧
      s.events = ((matchingRows golfRowsSample "p1" 2024).length : Int) ∧
      0 < s.events ∧
      s.cuts_made = ((matchingRows golfRowsSample "p1" 2024).map (fun r => r.made_cut)).sum ∧
      s.wins = ((matchingRows golfRowsSample "p1" 2024).map (fun r => r.win)).sum ∧
      s.cut_pct = sqlRound1 ((s.cuts_made : ℚ) / (s.events : ℚ) * 100) ∧
      s.win_pct = sqlRound1 ((s.wins : ℚ) / (s.events : ℚ) * 100) ∧
      s.best_finish =
        optMin ((matchingRows golfRowsSample "p1" 2024).filterMap (fun r => r.position_num)) ∧
      s.worst_finish =
        optMax ((matchingRows golfRowsSample "p1" 2024).filterMap (fun r => r.position_num)) :=
  golf_aggregate_row_correct golfRowsSample "p1" 2024 (by decide)
    ⟨mkGolfResult "006" 2024 "Tournament A" pos1Player,
      List.mem_cons_self _ _, rfl, rfl⟩

end NhlDash
